import Mathlib

/-!
# Verification of the MoMo-Adam optimizer step

Shallow embedding of `optax/contrib/momo_adam.py`: the optimizer state, the
`init_fn` initializer, and the `update_fn` one-step transformation, with the
nested parameter containers flattened to lists of real numbers.  Elementwise
`tree_map` becomes `List.map` / `List.zipWith`, and `tree_vdot` the sum of
elementwise products.  Machine floats are modelled as real numbers; the guard
threshold `jnp.finfo(float).eps` is the single-precision machine epsilon
`2⁻²³` named by the specification.
-/

namespace MomoAdam

noncomputable section

/-- Ternary zip, used for the parameter-update map over
`(exp_avg, precond, params)`. -/
def zipWith3 (f : ℝ → ℝ → ℝ → ℝ) : List ℝ → List ℝ → List ℝ → List ℝ
  | a :: as, b :: bs, c :: cs => f a b c :: zipWith3 f as bs cs
  | _, _, _ => []

/-- `optax.tree_utils.tree_vdot` on flattened containers: the inner product,
i.e. the sum of the elementwise products of the two lists. -/
def tree_vdot (a b : List ℝ) : ℝ := (List.zipWith (fun x y => x * y) a b).sum

/-- The `learning_rate` argument of `momo_adam`: either a constant scalar or a
schedule, a function of the step count (`base.ScalarOrSchedule`). -/
inductive ScalarOrSchedule where
  | scalar (c : ℝ)
  | schedule (f : ℕ → ℝ)

/-- `learning_rate(count) if callable(learning_rate) else learning_rate`. -/
def ScalarOrSchedule.resolve : ScalarOrSchedule → ℕ → ℝ
  | .scalar c, _ => c
  | .schedule f, n => f n

/-- The configuration fixed at construction time by `momo_adam(...)`:
`learning_rate`, the two `betas`, `eps`, the loss lower bound `lb`, and
`weight_decay`. -/
structure MomoAdamConfig where
  learning_rate : ScalarOrSchedule
  beta1 : ℝ
  beta2 : ℝ
  eps : ℝ
  lb : ℝ
  weight_decay : ℝ

/-- `MomoAdamState`: the five persisted quantities.  The step counter is an
int32 scalar that is always nonnegative, modelled as `ℕ`. -/
structure MomoAdamState where
  exp_avg : List ℝ
  exp_avg_sq : List ℝ
  barf : ℝ
  gamma : ℝ
  count : ℕ

/-- `jnp.finfo(float).eps` as named by the specification: the float32 machine
epsilon `2⁻²³`. -/
def machine_epsilon : ℝ := 1 / 8388608

/-- Modelled from the spec: `optax._src.utils.safe_int32_increment`, called at
line 144 of `momo_adam.py`, is not part of the provided sources.  The spec
requires the counter to be a nonnegative integer that is monotonically
non-decreasing, so under int32 arithmetic the increment must saturate at the
int32 maximum `2147483647` instead of wrapping around. -/
def safe_int32_increment (count : ℕ) : ℕ :=
  if count < 2147483647 then count + 1 else 2147483647

/-- `init_fn`: zero moment containers mirroring the parameter container's
shape, `barf = 0`, `gamma = 0`, `count = 0`. -/
def init_fn (params : List ℝ) : MomoAdamState :=
  { exp_avg := params.map (fun _ => 0)
    exp_avg_sq := params.map (fun _ => 0)
    barf := 0
    gamma := 0
    count := 0 }

/-- `barf = beta1*state.barf + (1-beta1)*loss`. -/
def barf_upd (cfg : MomoAdamConfig) (state : MomoAdamState) (loss : ℝ) : ℝ :=
  cfg.beta1 * state.barf + (1 - cfg.beta1) * loss

/-- `exp_avg = tree_map(lambda ea, g: beta1*ea + (1-beta1)*g, state.exp_avg, updates)`. -/
def exp_avg_upd (cfg : MomoAdamConfig) (state : MomoAdamState)
    (updates : List ℝ) : List ℝ :=
  List.zipWith (fun ea g => cfg.beta1 * ea + (1 - cfg.beta1) * g)
    state.exp_avg updates

/-- `exp_avg_sq = tree_map(lambda eas, g: beta2*eas + (1-beta2)*g*g, state.exp_avg_sq, updates)`. -/
def exp_avg_sq_upd (cfg : MomoAdamConfig) (state : MomoAdamState)
    (updates : List ℝ) : List ℝ :=
  List.zipWith (fun eas g => cfg.beta2 * eas + (1 - cfg.beta2) * g * g)
    state.exp_avg_sq updates

/-- `bc2 = 1 - beta2**(count+1)`. -/
def bc2 (cfg : MomoAdamConfig) (count : ℕ) : ℝ := 1 - cfg.beta2 ^ (count + 1)

/-- `precond = tree_map(lambda eas: eps + sqrt(eas/bc2), exp_avg_sq)`. -/
def precond (cfg : MomoAdamConfig) (state : MomoAdamState)
    (updates : List ℝ) : List ℝ :=
  (exp_avg_sq_upd cfg state updates).map
    (fun eas => cfg.eps + Real.sqrt (eas / bc2 cfg state.count))

/-- `exp_avg_weighted = tree_map(lambda ea, prec: ea/prec, exp_avg, precond)`. -/
def exp_avg_weighted (cfg : MomoAdamConfig) (state : MomoAdamState)
    (updates : List ℝ) : List ℝ :=
  List.zipWith (fun ea prec => ea / prec)
    (exp_avg_upd cfg state updates) (precond cfg state updates)

/-- `exp_avg_norm = tree_vdot(exp_avg, exp_avg_weighted)`. -/
def exp_avg_norm (cfg : MomoAdamConfig) (state : MomoAdamState)
    (updates : List ℝ) : ℝ :=
  tree_vdot (exp_avg_upd cfg state updates) (exp_avg_weighted cfg state updates)

/-- `gamma = beta1*state.gamma + (1-beta1)*tree_vdot(updates, params)`. -/
def gamma_upd (cfg : MomoAdamConfig) (state : MomoAdamState)
    (updates params : List ℝ) : ℝ :=
  cfg.beta1 * state.gamma + (1 - cfg.beta1) * tree_vdot updates params

/-- `iprod = tree_vdot(exp_avg, params)`. -/
def iprod (cfg : MomoAdamConfig) (state : MomoAdamState)
    (updates params : List ℝ) : ℝ :=
  tree_vdot (exp_avg_upd cfg state updates) params

/-- `alpha = learning_rate(count) if callable(learning_rate) else learning_rate`. -/
def alpha (cfg : MomoAdamConfig) (count : ℕ) : ℝ :=
  cfg.learning_rate.resolve count

/-- `bc1 = 1 - beta1**(count+1)`. -/
def bc1 (cfg : MomoAdamConfig) (count : ℕ) : ℝ := 1 - cfg.beta1 ^ (count + 1)

/-- `t1 = maximum((1+alpha*weight_decay)*(barf - bc1*lb - gamma) + iprod, 0) / exp_avg_norm`,
before the degenerate-case guard. -/
def t1_raw (cfg : MomoAdamConfig) (state : MomoAdamState)
    (updates params : List ℝ) (loss : ℝ) : ℝ :=
  max ((1 + alpha cfg state.count * cfg.weight_decay) *
        (barf_upd cfg state loss - bc1 cfg state.count * cfg.lb -
          gamma_upd cfg state updates params) +
        iprod cfg state updates params) 0 /
    exp_avg_norm cfg state updates

/-- `t1 = cond(exp_avg_norm <= finfo(float).eps, lambda: 0., lambda: t1)`:
the degenerate-case guard. -/
def t1 (cfg : MomoAdamConfig) (state : MomoAdamState)
    (updates params : List ℝ) (loss : ℝ) : ℝ :=
  if exp_avg_norm cfg state updates ≤ machine_epsilon then 0
  else t1_raw cfg state updates params loss

/-- `tau = minimum(alpha/bc1, t1)`. -/
def tau (cfg : MomoAdamConfig) (state : MomoAdamState)
    (updates params : List ℝ) (loss : ℝ) : ℝ :=
  min (alpha cfg state.count / bc1 cfg state.count)
    (t1 cfg state updates params loss)

/-- `p_update = tree_map(lambda ea, prec, p:
-(alpha*weight_decay)/(1+alpha*weight_decay)*p - tau*ea/prec,
exp_avg, precond, params)`. -/
def p_update (cfg : MomoAdamConfig) (state : MomoAdamState)
    (updates params : List ℝ) (loss : ℝ) : List ℝ :=
  zipWith3
    (fun ea prec p =>
      -(alpha cfg state.count * cfg.weight_decay) /
          (1 + alpha cfg state.count * cfg.weight_decay) * p -
        tau cfg state updates params loss * ea / prec)
    (exp_avg_upd cfg state updates) (precond cfg state updates) params

/-- The body of `update_fn` after the two argument checks have passed:
the returned `(p_update, new_state)` pair. -/
def update_core (cfg : MomoAdamConfig) (updates : List ℝ)
    (state : MomoAdamState) (params : List ℝ) (loss : ℝ) :
    List ℝ × MomoAdamState :=
  (p_update cfg state updates params loss,
    { exp_avg := exp_avg_upd cfg state updates
      exp_avg_sq := exp_avg_sq_upd cfg state updates
      barf := barf_upd cfg state loss
      gamma := gamma_upd cfg state updates params
      count := safe_int32_increment state.count })

/-- Message of the `ValueError` raised when `params is None`
(`base.NO_PARAMS_MSG`). -/
def NO_PARAMS_MSG : String := "missing params"

/-- Message of the `ValueError` raised when `loss is None`. -/
def NO_LOSS_MSG : String :=
  "You need to pass the latest loss value to Momo."

/-- `update_fn`: checks `params` and `loss` for presence, raising a
`ValueError` for a missing one, then runs the step. -/
def update_fn (cfg : MomoAdamConfig) (updates : List ℝ)
    (state : MomoAdamState) (params : Option (List ℝ)) (loss : Option ℝ) :
    Except String (List ℝ × MomoAdamState) :=
  match params with
  | none => .error NO_PARAMS_MSG
  | some p =>
    match loss with
    | none => .error NO_LOSS_MSG
    | some l => .ok (update_core cfg updates state p l)

/-- Configuration of the spec's concrete regression scenario:
`learning_rate=1.0`, `betas=(0.9,0.999)`, `eps=1e-8`, `lb=0`,
`weight_decay=0`. -/
def fixtureCfg : MomoAdamConfig :=
  { learning_rate := .scalar 1
    beta1 := 9 / 10
    beta2 := 999 / 1000
    eps := 1 / 100000000
    lb := 0
    weight_decay := 0 }

/-- An all-zero configuration used as a degenerate-case fixture: zero betas,
zero weight decay, constant learning rate 1, eps 1. -/
def zeroCfg : MomoAdamConfig :=
  { learning_rate := .scalar 1
    beta1 := 0
    beta2 := 0
    eps := 1
    lb := 0
    weight_decay := 0 }

/-- A state sitting at the int32 maximum step count. -/
def maxCountState : MomoAdamState :=
  { exp_avg := [0], exp_avg_sq := [0], barf := 0, gamma := 0,
    count := 2147483647 }

end

/-! ## Helper lemmas -/

theorem bc1_pos (cfg : MomoAdamConfig) (count : ℕ)
    (h0 : 0 ≤ cfg.beta1) (h1 : cfg.beta1 < 1) : 0 < bc1 cfg count := by
  have h : cfg.beta1 ^ (count + 1) < 1 := pow_lt_one₀ h0 h1 (by omega)
  rw [bc1]
  linarith

theorem zipWith3_const_right (g : ℝ → ℝ) :
    ∀ a b c : List ℝ, c.length ≤ a.length → c.length ≤ b.length →
      zipWith3 (fun _ _ p => g p) a b c = c.map g
  | _, _, [], _, _ => by
    simp [zipWith3]
  | [], _, _ :: _, ha, _ => by
    simp at ha
  | _ :: _, [], _ :: _, _, hb => by
    simp at hb
  | a :: as, b :: bs, c :: cs, ha, hb => by
    simp only [zipWith3, List.map]
    refine congrArg _ (zipWith3_const_right g as bs cs ?_ ?_)
    · simpa using ha
    · simpa using hb

theorem zipWith_second_moment_nonneg (b2 : ℝ) (hb0 : 0 ≤ b2) (hb1 : b2 ≤ 1) :
    ∀ a b : List ℝ, (∀ x ∈ a, 0 ≤ x) →
      ∀ x ∈ List.zipWith (fun eas g => b2 * eas + (1 - b2) * g * g) a b, 0 ≤ x
  | [], _, _ => by simp
  | _ :: _, [], _ => by simp
  | eas :: as, g :: bs, ha => by
    intro x hx
    rw [List.zipWith_cons_cons, List.mem_cons] at hx
    rcases hx with hx | hx
    · have h1 : 0 ≤ b2 * eas := mul_nonneg hb0 (ha _ (List.mem_cons_self _ _))
      have h2 : 0 ≤ (1 - b2) * g * g := by
        have : (1 - b2) * g * g = (1 - b2) * (g * g) := by ring
        rw [this]
        exact mul_nonneg (by linarith) (mul_self_nonneg g)
      rw [hx]
      linarith
    · exact zipWith_second_moment_nonneg b2 hb0 hb1 as bs
        (fun y hy => ha y (List.mem_cons_of_mem _ hy)) x hx

/-! ## Claim theorems -/

/-- C7: non-negativity of the `exp_avg_sq` entries is a state invariant —
it holds after `init_fn`, and given `beta2 ∈ [0,1)` it is preserved by the
second-moment update of `update_fn` for every gradient container. -/
theorem exp_avg_sq_nonneg_invariant (cfg : MomoAdamConfig)
    (state : MomoAdamState) (updates : List ℝ)
    (hb0 : 0 ≤ cfg.beta2) (hb1 : cfg.beta2 < 1)
    (hsq : ∀ x ∈ state.exp_avg_sq, 0 ≤ x) :
    (∀ params : List ℝ, ∀ x ∈ (init_fn params).exp_avg_sq, 0 ≤ x) ∧
      (∀ x ∈ exp_avg_sq_upd cfg state updates, 0 ≤ x) := by
  constructor
  · intro params x hx
    rw [init_fn, List.mem_map] at hx
    obtain ⟨a, -, rfl⟩ := hx
    exact le_refl 0
  · exact zipWith_second_moment_nonneg cfg.beta2 hb0 hb1.le
      state.exp_avg_sq updates hsq

/-- C7 witness: the invariant instantiated on the initial single-parameter
state with a concrete gradient. -/
theorem exp_avg_sq_nonneg_invariant_witness :
    (∀ params : List ℝ, ∀ x ∈ (init_fn params).exp_avg_sq, 0 ≤ x) ∧
      (∀ x ∈ exp_avg_sq_upd fixtureCfg (init_fn [1]) [1/2], 0 ≤ x) :=
  exp_avg_sq_nonneg_invariant fixtureCfg (init_fn [1]) [1/2]
    (by norm_num [fixtureCfg]) (by norm_num [fixtureCfg])
    (by simp [init_fn])

/-- C4: with `eps > 0` and non-negative `exp_avg_sq` entries, every
preconditioner entry is at least `eps` and hence nonzero, so the elementwise
divisions by `precond` never divide by zero; and under the degenerate-case
guard the division defining `t1` is replaced by `0`. -/
theorem update_numeric_total (cfg : MomoAdamConfig) (state : MomoAdamState)
    (updates : List ℝ) (heps : 0 < cfg.eps)
    (hsq : ∀ x ∈ state.exp_avg_sq, 0 ≤ x) :
    (∀ x ∈ precond cfg state updates, cfg.eps ≤ x ∧ x ≠ 0) ∧
      (∀ params : List ℝ, ∀ loss : ℝ,
        exp_avg_norm cfg state updates ≤ machine_epsilon →
          t1 cfg state updates params loss = 0) := by
  constructor
  · intro x hx
    rw [precond, List.mem_map] at hx
    obtain ⟨eas, -, rfl⟩ := hx
    have hs : 0 ≤ Real.sqrt (eas / bc2 cfg state.count) := Real.sqrt_nonneg _
    constructor
    · linarith
    · positivity
  · intro params loss hnorm
    rw [t1, if_pos hnorm]

/-- C4 witness: totality instantiated on the initial single-parameter state
of the fixture configuration, whose `eps = 1e-8` is positive. -/
theorem update_numeric_total_witness :
    (∀ x ∈ precond fixtureCfg (init_fn [1]) [1/2],
        fixtureCfg.eps ≤ x ∧ x ≠ 0) ∧
      (∀ params : List ℝ, ∀ loss : ℝ,
        exp_avg_norm fixtureCfg (init_fn [1]) [1/2] ≤ machine_epsilon →
          t1 fixtureCfg (init_fn [1]) [1/2] params loss = 0) :=
  update_numeric_total fixtureCfg (init_fn [1]) [1/2]
    (by norm_num [fixtureCfg]) (by simp [init_fn])

/-- C2 counterexample: starting from a state whose counter already equals the
int32 maximum, the returned counter is not the input counter plus one. -/
theorem update_count_cex :
    (update_core fixtureCfg [0] maxCountState [0] 0).2.count ≠
      maxCountState.count + 1 := by
  simp [update_core, safe_int32_increment, maxCountState]

/-- C2 (amended): for every call to `update` that does not raise, if the input
counter is below the int32 maximum 2147483647, then the returned counter
equals the input counter plus exactly one; at the maximum the counter
saturates instead. -/
theorem update_count_increment (cfg : MomoAdamConfig) (updates : List ℝ)
    (state : MomoAdamState) (params : List ℝ) (loss : ℝ)
    (h : state.count < 2147483647) :
    (update_core cfg updates state params loss).2.count = state.count + 1 := by
  simp [update_core, safe_int32_increment, h]

/-- C2 witness: concrete first step from `init`, counter goes from 0 to 1. -/
theorem update_count_increment_witness :
    (init_fn [1]).count < 2147483647 ∧
      (update_core fixtureCfg [1] (init_fn [1]) [1] 1).2.count =
        (init_fn [1]).count + 1 :=
  ⟨by norm_num [init_fn],
    update_count_increment fixtureCfg [1] (init_fn [1]) [1] 1
      (by norm_num [init_fn])⟩

/-- C3: `update_fn` returns an error exactly when `params` is `none` or
`loss` is `none`; an error result carries no new state, and these are the
only error conditions. -/
theorem update_fn_error_iff (cfg : MomoAdamConfig) (updates : List ℝ)
    (state : MomoAdamState) (params : Option (List ℝ)) (loss : Option ℝ) :
    (∃ e, update_fn cfg updates state params loss = .error e) ↔
      params = none ∨ loss = none := by
  cases params <;> cases loss <;> simp [update_fn]

/-- C5: the adaptive step size `tau = min(alpha/bc1, t1)` never exceeds the
bias-corrected configured rate `alpha / bc1`. -/
theorem tau_le_alpha_div_bc1 (cfg : MomoAdamConfig) (state : MomoAdamState)
    (updates params : List ℝ) (loss : ℝ) :
    tau cfg state updates params loss ≤
      alpha cfg state.count / bc1 cfg state.count :=
  min_le_left _ _

/-- C8: `init_fn` returns zero-filled moment containers of the same shape as
the parameter container, with `barf = 0`, `gamma = 0`, `count = 0`. -/
theorem init_fn_spec (params : List ℝ) :
    (init_fn params).exp_avg = List.replicate params.length 0 ∧
      (init_fn params).exp_avg_sq = List.replicate params.length 0 ∧
      (init_fn params).barf = 0 ∧ (init_fn params).gamma = 0 ∧
      (init_fn params).count = 0 := by
  refine ⟨?_, ?_, rfl, rfl, rfl⟩ <;>
    simp [init_fn, List.map_const']

/-- C9: `update_fn` is deterministic — calls with identical gradients, state,
params and loss return identical results. -/
theorem update_fn_deterministic (cfg : MomoAdamConfig)
    (u1 u2 : List ℝ) (s1 s2 : MomoAdamState)
    (p1 p2 : Option (List ℝ)) (l1 l2 : Option ℝ)
    (hu : u1 = u2) (hs : s1 = s2) (hp : p1 = p2) (hl : l1 = l2) :
    update_fn cfg u1 s1 p1 l1 = update_fn cfg u2 s2 p2 l2 := by
  rw [hu, hs, hp, hl]

/-- C9 witness: determinism instantiated at a concrete call. -/
theorem update_fn_deterministic_witness :
    update_fn fixtureCfg [1] (init_fn [1]) (some [1]) (some 1) =
      update_fn fixtureCfg [1] (init_fn [1]) (some [1]) (some 1) :=
  update_fn_deterministic fixtureCfg [1] [1] (init_fn [1]) (init_fn [1])
    (some [1]) (some [1]) (some 1) (some 1) rfl rfl rfl rfl

/-- C10: the step counter saturates — from a state whose counter equals the
int32 maximum 2147483647, `update` returns a counter still equal to
2147483647, never wrapping around. -/
theorem update_count_saturates (cfg : MomoAdamConfig) (updates : List ℝ)
    (state : MomoAdamState) (params : List ℝ) (loss : ℝ)
    (h : state.count = 2147483647) :
    (update_core cfg updates state params loss).2.count = 2147483647 := by
  simp [update_core, safe_int32_increment, h]

/-- C10 witness: saturation at the concrete max-count state. -/
theorem update_count_saturates_witness :
    maxCountState.count = 2147483647 ∧
      (update_core zeroCfg [0] maxCountState [0] 0).2.count = 2147483647 :=
  ⟨rfl, update_count_saturates zeroCfg [0] maxCountState [0] 0 rfl⟩

/-- C1: whenever `exp_avg_norm ≤ machine_epsilon`, the guard sets `t1 = 0`
instead of evaluating the division, and the returned update container equals
exactly the weight-decay-only term
`−(alpha·weight_decay)/(1+alpha·weight_decay)·p` at every entry of `params`
(under the spec's configuration domain: `beta1 ∈ [0,1)` and a non-negative
resolved learning rate, with shape-matched containers). -/
theorem degenerate_guard_update (cfg : MomoAdamConfig) (state : MomoAdamState)
    (updates params : List ℝ) (loss : ℝ)
    (hb0 : 0 ≤ cfg.beta1) (hb1 : cfg.beta1 < 1)
    (halpha : 0 ≤ alpha cfg state.count)
    (hlen1 : state.exp_avg.length = params.length)
    (hlen2 : state.exp_avg_sq.length = params.length)
    (hlen3 : updates.length = params.length)
    (hnorm : exp_avg_norm cfg state updates ≤ machine_epsilon) :
    t1 cfg state updates params loss = 0 ∧
      p_update cfg state updates params loss =
        params.map (fun p =>
          -(alpha cfg state.count * cfg.weight_decay) /
            (1 + alpha cfg state.count * cfg.weight_decay) * p) := by
  have ht1 : t1 cfg state updates params loss = 0 := by
    rw [t1, if_pos hnorm]
  refine ⟨ht1, ?_⟩
  have htau : tau cfg state updates params loss = 0 := by
    rw [tau, ht1]
    exact min_eq_right
      (div_nonneg halpha (bc1_pos cfg state.count hb0 hb1).le)
  have hfun :
      (fun ea prec p =>
          -(alpha cfg state.count * cfg.weight_decay) /
              (1 + alpha cfg state.count * cfg.weight_decay) * p -
            tau cfg state updates params loss * ea / prec) =
        (fun _ _ p =>
          -(alpha cfg state.count * cfg.weight_decay) /
            (1 + alpha cfg state.count * cfg.weight_decay) * p) := by
    funext ea prec p
    rw [htau]
    ring
  have hlea : params.length ≤ (exp_avg_upd cfg state updates).length := by
    rw [exp_avg_upd, List.length_zipWith, hlen1, hlen3, min_self]
  have hlprec : params.length ≤ (precond cfg state updates).length := by
    rw [precond, List.length_map, exp_avg_sq_upd, List.length_zipWith,
      hlen2, hlen3, min_self]
  rw [p_update, hfun]
  exact zipWith3_const_right _ _ _ _ hlea hlprec

/-- C1 witness: with the all-zero fixture (zero gradient from the initial
state) the norm is 0 ≤ ε, and the update is the weight-decay-only term. -/
theorem degenerate_guard_update_witness :
    exp_avg_norm zeroCfg (init_fn [1]) [0] ≤ machine_epsilon ∧
      t1 zeroCfg (init_fn [1]) [0] [1] 0 = 0 ∧
      p_update zeroCfg (init_fn [1]) [0] [1] 0 =
        [(1 : ℝ)].map (fun p =>
          -(alpha zeroCfg (init_fn [1]).count * zeroCfg.weight_decay) /
            (1 + alpha zeroCfg (init_fn [1]).count * zeroCfg.weight_decay) * p) := by
  have hnorm : exp_avg_norm zeroCfg (init_fn [1]) [0] ≤ machine_epsilon := by
    simp [exp_avg_norm, exp_avg_weighted, exp_avg_upd, exp_avg_sq_upd, precond,
      bc2, tree_vdot, init_fn, zeroCfg, machine_epsilon]
  exact ⟨hnorm,
    degenerate_guard_update zeroCfg (init_fn [1]) [0] [1] 0
      (by norm_num [zeroCfg]) (by norm_num [zeroCfg])
      (by norm_num [zeroCfg, alpha, ScalarOrSchedule.resolve, init_fn])
      (by simp [init_fn]) (by simp [init_fn]) (by simp) hnorm⟩

/-- C6: the spec's concrete regression scenario — single scalar parameter
`p = 1`, fixture configuration, first call after `init` with gradient `1/2`
and loss `2` yields `barf = 1/5`, `gamma = 1/20`, `exp_avg = [1/20]`,
`exp_avg_sq = [1/4000]`, `count = 1`, and the update value
`-(50000000/50000001)` obtained by direct evaluation of steps 3–11
(`precond = 1e-8 + 1/2`, `tau = min(10, 40.0000008) = 10`). -/
theorem first_step_fixture :
    update_core fixtureCfg [1/2] (init_fn [1]) [1] 2 =
      ([-(50000000/50000001 : ℝ)],
        { exp_avg := [1/20], exp_avg_sq := [1/4000], barf := 1/5,
          gamma := 1/20, count := 1 }) := by
  have h_ea : exp_avg_upd fixtureCfg (init_fn [1]) [1/2] = [1/20] := by
    norm_num [exp_avg_upd, init_fn, fixtureCfg]
  have h_eas : exp_avg_sq_upd fixtureCfg (init_fn [1]) [1/2] = [1/4000] := by
    norm_num [exp_avg_sq_upd, init_fn, fixtureCfg]
  have h_prec : precond fixtureCfg (init_fn [1]) [1/2] =
      [50000001/100000000] := by
    rw [precond, h_eas]
    have harg : (1/4000 : ℝ) / bc2 fixtureCfg (init_fn [1]).count =
        (1/2) ^ 2 := by
      norm_num [bc2, fixtureCfg, init_fn]
    simp only [List.map_cons, List.map_nil]
    rw [harg, Real.sqrt_sq (by norm_num : (0:ℝ) ≤ 1/2)]
    norm_num [fixtureCfg]
  have h_w : exp_avg_weighted fixtureCfg (init_fn [1]) [1/2] =
      [5000000/50000001] := by
    rw [exp_avg_weighted, h_ea, h_prec]
    norm_num
  have h_norm : exp_avg_norm fixtureCfg (init_fn [1]) [1/2] =
      250000/50000001 := by
    rw [exp_avg_norm, h_ea, h_w]
    norm_num [tree_vdot]
  have h_barf : barf_upd fixtureCfg (init_fn [1]) 2 = 1/5 := by
    norm_num [barf_upd, init_fn, fixtureCfg]
  have h_gamma : gamma_upd fixtureCfg (init_fn [1]) [1/2] [1] = 1/20 := by
    norm_num [gamma_upd, init_fn, fixtureCfg, tree_vdot]
  have h_iprod : iprod fixtureCfg (init_fn [1]) [1/2] [1] = 1/20 := by
    rw [iprod, h_ea]
    norm_num [tree_vdot]
  have h_alpha : alpha fixtureCfg (init_fn [1]).count = 1 := rfl
  have h_bc1 : bc1 fixtureCfg (init_fn [1]).count = 1/10 := by
    norm_num [bc1, fixtureCfg, init_fn]
  have h_t1raw : t1_raw fixtureCfg (init_fn [1]) [1/2] [1] 2 =
      50000001/1250000 := by
    rw [t1_raw, h_barf, h_gamma, h_iprod, h_alpha, h_bc1, h_norm]
    norm_num [fixtureCfg, max_def]
  have h_t1 : t1 fixtureCfg (init_fn [1]) [1/2] [1] 2 =
      50000001/1250000 := by
    rw [t1, h_norm, if_neg (by norm_num [machine_epsilon])]
    exact h_t1raw
  have h_tau : tau fixtureCfg (init_fn [1]) [1/2] [1] 2 = 10 := by
    rw [tau, h_t1, h_alpha, h_bc1]
    norm_num [min_def]
  have h_pupd : p_update fixtureCfg (init_fn [1]) [1/2] [1] 2 =
      [-(50000000/50000001)] := by
    rw [p_update, h_ea, h_prec, h_tau, h_alpha]
    norm_num [zipWith3, fixtureCfg]
  rw [update_core, h_pupd, h_ea, h_eas, h_barf, h_gamma]
  norm_num [safe_int32_increment, init_fn]

end MomoAdam
